import Mathlib

/-!
# Shallow embedding of the Remitwise Soroban contracts

Embedded contracts: remittance_split, bill_payments, insurance,
savings_goals (each from its src/lib.rs).

Modelling conventions, applied uniformly:

* A Soroban instance-storage cell is an Option value (none = cell absent);
  .getD mirrors the unwrap_or / unwrap_or_else defaults of the source.
* Map<u64, T> is modelled as a function Nat -> Option T.  Every source
  iteration walks ids 1..=NEXT_ID through .get(id) and never relies on the
  map's own iteration order, so this is faithful.
* u32/u64 values are modelled as Nat and i128 values as Int.  Rust's / on
  i128 truncates toward zero, which is Int.tdiv.
* A Rust panic aborts the transaction leaving storage untouched; a
  panicking call is modelled as an Option/Except failure result carrying
  no successor state (the caller's state is unchanged).
* require_auth, event publication and TTL extension are external
  collaborator calls with no effect on the modelled state; they are not
  modelled.
-/

namespace Remitwise

/-! ## remittance_split/src/lib.rs -/

namespace RemSplit

/-- The SplitConfig struct (Address modelled as Nat). -/
structure SplitConfig where
  owner : Nat
  spending_percent : Nat
  savings_percent : Nat
  bills_percent : Nat
  insurance_percent : Nat
  initialized : Bool
deriving Repr, DecidableEq

/-- Instance storage of the RemittanceSplit contract: the SPLIT tuple cell
and the CONFIG cell. -/
structure SplitState where
  split : Option (Nat × Nat × Nat × Nat)
  config : Option SplitConfig
deriving Repr, DecidableEq

/-- initialize_split.  Panics (none) if CONFIG already exists; returns
false without writing when the percentages do not sum to 100 (u32
addition would trap on overflow under the build's overflow checks, which
is likewise a failure without persisting; sums of interest are small).
On success writes both cells and returns true. -/
def initialize_split (s : SplitState) (owner spending_percent savings_percent
    bills_percent insurance_percent : Nat) : Option (Bool × SplitState) :=
  if s.config.isSome then none
  else if spending_percent + savings_percent + bills_percent + insurance_percent ≠ 100 then
    some (false, s)
  else
    some (true,
      { split := some (spending_percent, savings_percent, bills_percent, insurance_percent),
        config := some ⟨owner, spending_percent, savings_percent, bills_percent,
                        insurance_percent, true⟩ })

/-- update_split.  Panics (none) if CONFIG is absent or the caller is not
the stored owner; returns false without writing when the percentages do
not sum to 100; on success overwrites both cells and returns true. -/
def update_split (s : SplitState) (owner spending_percent savings_percent
    bills_percent insurance_percent : Nat) : Option (Bool × SplitState) :=
  match s.config with
  | none => none
  | some config =>
    if config.owner ≠ owner then none
    else if spending_percent + savings_percent + bills_percent + insurance_percent ≠ 100 then
      some (false, s)
    else
      some (true,
        { split := some (spending_percent, savings_percent, bills_percent, insurance_percent),
          config := some ⟨owner, spending_percent, savings_percent, bills_percent,
                          insurance_percent, true⟩ })

/-- get_split: the SPLIT cell, defaulting to (50, 30, 15, 5). -/
def get_split (s : SplitState) : Nat × Nat × Nat × Nat :=
  s.split.getD (50, 30, 15, 5)

/-- calculate_split.  Panics (none) when total_amount ≤ 0; otherwise the
first three shares are i128 truncating divisions by 100 and insurance is
the exact remainder. -/
def calculate_split (s : SplitState) (total_amount : Int) : Option (List Int) :=
  if total_amount ≤ 0 then none
  else
    match get_split s with
    | (spending_pct, savings_pct, bills_pct, _) =>
      let total := total_amount
      let spending := Int.tdiv (total * (spending_pct : Int)) 100
      let savings := Int.tdiv (total * (savings_pct : Int)) 100
      let bills := Int.tdiv (total * (bills_pct : Int)) 100
      let insurance := total - spending - savings - bills
      some [spending, savings, bills, insurance]

end RemSplit

/-! ## bill_payments/src/lib.rs (the active, uncommented implementation) -/

namespace Bills

/-- The Bill struct. -/
structure Bill where
  id : Nat
  amount : Int
  due_date : Nat
  frequency_days : Nat
  paid : Bool
  recurring : Bool
  name : String
deriving Repr, DecidableEq

/-- Instance storage of the BillPayments contract: BILLS, NEXT_ID and
UNPAID cells. -/
structure St where
  bills : Option (Nat → Option Bill)
  next_id : Option Nat
  unpaid_count : Option Nat

/-- The BILLS map as read by every operation (unwrap_or_else Map::new). -/
def billsOf (s : St) : Nat → Option Bill := s.bills.getD (fun _ => none)

/-- The NEXT_ID cell as read by every operation (unwrap_or 0). -/
def nidOf (s : St) : Nat := s.next_id.getD 0

/-- create_bill.  Panics (none) when amount ≤ 0, before any storage
write; otherwise inserts the new Open bill under NEXT_ID + 1, bumps
NEXT_ID and the UNPAID counter, and returns the new id. -/
def create_bill (s : St) (name : String) (amount : Int) (due_date : Nat)
    (recurring : Bool) (frequency_days : Nat) : Option (Nat × St) :=
  if amount ≤ 0 then none
  else
    let bills := billsOf s
    let next_id := nidOf s + 1
    let bill : Bill :=
      { id := next_id, amount := amount, due_date := due_date,
        frequency_days := frequency_days, paid := false,
        recurring := recurring, name := name }
    let bills1 := fun k => if k = next_id then some bill else bills k
    let unpaid_count := s.unpaid_count.getD 0 + 1
    some (next_id,
      { bills := some bills1, next_id := some next_id,
        unpaid_count := some unpaid_count })

/-- pay_bill.  Returns false leaving the state untouched when the id is
unknown or the bill is already paid; otherwise marks the bill paid and,
for a recurring bill, inserts the successor bill under NEXT_ID + 1
(non-recurring bills instead decrement the UNPAID counter, saturating). -/
def pay_bill (s : St) (bill_id : Nat) : Bool × St :=
  let bills := billsOf s
  match bills bill_id with
  | none => (false, s)
  | some bill =>
    if bill.paid then (false, s)
    else
      let bill1 := { bill with paid := true }
      let bills1 := fun k => if k = bill_id then some bill1 else bills k
      if bill.recurring then
        let next_id := s.next_id.getD 0 + 1
        let next_due_date := bill.due_date + bill.frequency_days * 86400
        let next_bill : Bill :=
          { id := next_id, amount := bill.amount, due_date := next_due_date,
            frequency_days := bill.frequency_days, paid := false,
            recurring := true, name := bill.name }
        let bills2 := fun k => if k = next_id then some next_bill else bills1 k
        (true, { s with bills := some bills2, next_id := some next_id })
      else
        let unpaid_count := s.unpaid_count.getD 1 - 1
        (true, { s with bills := some bills1, unpaid_count := some unpaid_count })

/-- get_bill. -/
def get_bill (s : St) (bill_id : Nat) : Option Bill :=
  billsOf s bill_id

/-- get_unpaid_bills: walks ids 1..=NEXT_ID collecting unpaid bills in id
order. -/
def get_unpaid_bills (s : St) : List Bill :=
  (List.range' 1 (nidOf s)).filterMap fun id =>
    match billsOf s id with
    | some bill => if bill.paid then none else some bill
    | none => none

/-- Concrete fixture: a one-shot open bill. -/
def exBill : Bill :=
  { id := 1, amount := 25, due_date := 10, frequency_days := 0,
    paid := false, recurring := false, name := "rent" }

/-- Concrete fixture: a ledger holding only exBill. -/
def exState : St :=
  { bills := some (fun k => if k = 1 then some exBill else none),
    next_id := some 1, unpaid_count := some 1 }

/-- Concrete fixture: the spec's recurring example bill (due 1704067200,
every 30 days). -/
def exRecBill : Bill :=
  { id := 1, amount := 40, due_date := 1704067200, frequency_days := 30,
    paid := false, recurring := true, name := "power" }

/-- Concrete fixture: a ledger holding only exRecBill. -/
def exRecState : St :=
  { bills := some (fun k => if k = 1 then some exRecBill else none),
    next_id := some 1, unpaid_count := some 1 }

end Bills

/-! ## insurance/src/lib.rs (the active, uncommented implementation) -/

namespace Ins

/-- The InsurancePolicy struct. -/
structure Policy where
  monthly_premium : Int
  coverage_amount : Int
  next_payment_date : Nat
  id : Nat
  active : Bool
  name : String
  coverage_type : String
deriving Repr, DecidableEq

/-- Instance storage of the Insurance contract: POLICIES, NEXT_ID, ACTIVE
and PREMIUM cells. -/
structure St where
  policies : Option (Nat → Option Policy)
  next_id : Option Nat
  active_count : Option Nat
  total_premium : Option Int

/-- The POLICIES map as read by every operation. -/
def polsOf (s : St) : Nat → Option Policy := s.policies.getD (fun _ => none)

/-- The NEXT_ID cell as read by every operation. -/
def nidOf (s : St) : Nat := s.next_id.getD 0

/-- create_policy.  Panics (none) unless premium and coverage are
positive; otherwise inserts the new active policy under NEXT_ID + 1 and
bumps NEXT_ID, the ACTIVE counter, and the PREMIUM running total. -/
def create_policy (s : St) (name coverage_type : String)
    (monthly_premium coverage_amount : Int) (now : Nat) : Option (Nat × St) :=
  if monthly_premium ≤ 0 ∨ coverage_amount ≤ 0 then none
  else
    let policies := polsOf s
    let next_id := nidOf s + 1
    let next_payment_date := now + 30 * 86400
    let policy : Policy :=
      { id := next_id, monthly_premium := monthly_premium,
        coverage_amount := coverage_amount,
        next_payment_date := next_payment_date, active := true,
        name := name, coverage_type := coverage_type }
    let policies1 := fun k => if k = next_id then some policy else policies k
    let active_count := s.active_count.getD 0 + 1
    let total_premium := s.total_premium.getD 0 + monthly_premium
    some (next_id,
      { policies := some policies1, next_id := some next_id,
        active_count := some active_count, total_premium := some total_premium })

/-- deactivate_policy.  Returns false leaving the state untouched when
the id is unknown or the policy is already inactive; otherwise marks the
policy inactive, decrements the ACTIVE counter (saturating) and subtracts
the premium from the PREMIUM running total. -/
def deactivate_policy (s : St) (policy_id : Nat) : Bool × St :=
  let policies := polsOf s
  match policies policy_id with
  | none => (false, s)
  | some policy =>
    if policy.active = false then (false, s)
    else
      let policy1 := { policy with active := false }
      let policies1 := fun k => if k = policy_id then some policy1 else policies k
      let active_count := s.active_count.getD 1 - 1
      let total_premium := s.total_premium.getD policy.monthly_premium - policy.monthly_premium
      (true,
        { s with
          policies := some policies1,
          active_count := some active_count,
          total_premium := some total_premium })

/-- get_total_monthly_premium: the cached PREMIUM cell, O(1). -/
def get_total_monthly_premium (s : St) : Int :=
  s.total_premium.getD 0

/-- One operation of the create/deactivate fragment the aggregate-cache
claim quantifies over. -/
inductive Op where
  | create (name coverage_type : String) (monthly_premium coverage_amount : Int) (now : Nat)
  | deactivate (policy_id : Nat)

/-- Transaction semantics of one call: a panicking create aborts and
leaves the state unchanged. -/
def step (s : St) : Op → St
  | .create n c p cv now =>
    match create_policy s n c p cv now with
    | none => s
    | some x => x.2
  | .deactivate pid => (deactivate_policy s pid).2

/-- A sequence of calls. -/
def run (s : St) (ops : List Op) : St := ops.foldl step s

/-- The storage state produced by the source's explicit initialization:
all cells present and zero/empty. -/
def initState : St :=
  { policies := some (fun _ => none), next_id := some 0,
    active_count := some 0, total_premium := some 0 }

/-- The never-initialized storage state: every cell absent, observed as
zero defaults by reads. -/
def defaultState : St :=
  { policies := none, next_id := none, active_count := none, total_premium := none }

/-- Premium contribution of one id to the true active total. -/
def activePremAt (policies : Nat → Option Policy) (i : Nat) : Int :=
  match policies i with
  | some p => if p.active then p.monthly_premium else 0
  | none => 0

/-- Count contribution of one id to the true active count. -/
def activeCntAt (policies : Nat → Option Policy) (i : Nat) : Nat :=
  match policies i with
  | some p => if p.active then 1 else 0
  | none => 0

/-- The true sum of premiums of active policies (ids live in 1..=NEXT_ID
by the support invariant). -/
def trueSum (s : St) : Int :=
  ∑ i ∈ Finset.Icc 1 (nidOf s), activePremAt (polsOf s) i

/-- The true number of active policies. -/
def trueCount (s : St) : Nat :=
  ∑ i ∈ Finset.Icc 1 (nidOf s), activeCntAt (polsOf s) i

/-- The aggregate-cache invariant: the record map's support lies in
1..=NEXT_ID, the cache cells are present whenever any record exists, and
the cached count/total equal the true count/total. -/
def Inv (s : St) : Prop :=
  (∀ i, (polsOf s i).isSome → 1 ≤ i ∧ i ≤ nidOf s) ∧
  ((∃ i, (polsOf s i).isSome) → s.active_count.isSome ∧ s.total_premium.isSome) ∧
  s.active_count.getD 0 = trueCount s ∧
  s.total_premium.getD 0 = trueSum s

end Ins

/-! ## savings_goals/src/lib.rs -/

namespace Sav

/-- The SavingsError contracterror enum. -/
inductive SavingsError where
  | InvalidAmount
  | GoalNotFound
  | GoalLocked
  | InsufficientFunds
deriving Repr, DecidableEq

/-- The SavingsGoal struct. -/
structure SavingsGoal where
  id : Nat
  target_amount : Int
  current_amount : Int
  target_date : Nat
  locked : Bool
  name : String
deriving Repr, DecidableEq

/-- Instance storage of the SavingsGoals contract: GOALS, NEXT_ID, TOTAL,
ACTIVE and COMPLETE cells. -/
structure St where
  goals : Option (Nat → Option SavingsGoal)
  next_id : Option Nat
  total_saved : Option Int
  active_count : Option Nat
  completed_count : Option Nat

/-- The GOALS map as read by every operation. -/
def goalsOf (s : St) : Nat → Option SavingsGoal := s.goals.getD (fun _ => none)

/-- create_goal.  Panics (none) when target_amount ≤ 0, and then when
target_date is not strictly after the ledger clock (now), both before any
storage write; otherwise inserts the new goal under NEXT_ID + 1, bumps
NEXT_ID and the ACTIVE counter, and returns the new id.  (The source's
trailing event publication is an external collaborator call.) -/
def create_goal (s : St) (name : String) (target_amount : Int)
    (target_date now : Nat) : Option (Nat × St) :=
  if target_amount ≤ 0 then none
  else if target_date ≤ now then none
  else
    let goals := goalsOf s
    let next_id := s.next_id.getD 0 + 1
    let goal : SavingsGoal :=
      { id := next_id, target_amount := target_amount, current_amount := 0,
        target_date := target_date, locked := true, name := name }
    let goals1 := fun k => if k = next_id then some goal else goals k
    let active_count := s.active_count.getD 0 + 1
    some (next_id,
      { s with
        goals := some goals1,
        next_id := some next_id,
        active_count := some active_count })

/-- add_to_goal.  Err(InvalidAmount) when amount ≤ 0, Err(GoalNotFound)
when the id is unknown (both leaving the state untouched); otherwise adds
the amount to the goal's current_amount and the TOTAL cell, and — exactly
when the goal transitions from below target to at-or-above target — bumps
the COMPLETE counter and decrements the ACTIVE counter (saturating).
Returns the updated current_amount. -/
def add_to_goal (s : St) (goal_id : Nat) (amount : Int) :
    Except SavingsError (Int × St) :=
  if amount ≤ 0 then .error .InvalidAmount
  else
    let goals := goalsOf s
    match goals goal_id with
    | none => .error .GoalNotFound
    | some goal =>
      let was_completed := goal.target_amount ≤ goal.current_amount
      let goal1 := { goal with current_amount := goal.current_amount + amount }
      let goals1 := fun k => if k = goal_id then some goal1 else goals k
      let total_saved := s.total_saved.getD 0 + amount
      let is_completed := goal1.target_amount ≤ goal1.current_amount
      if ¬ was_completed ∧ is_completed then
        .ok (goal1.current_amount,
          { s with
            goals := some goals1,
            total_saved := some total_saved,
            completed_count := some (s.completed_count.getD 0 + 1),
            active_count := some (s.active_count.getD 1 - 1) })
      else
        .ok (goal1.current_amount,
          { s with
            goals := some goals1,
            total_saved := some total_saved })

/-- Concrete fixture: a goal five short of its target. -/
def exGoal : SavingsGoal :=
  { id := 1, target_amount := 100, current_amount := 95, target_date := 999,
    locked := true, name := "car" }

/-- Concrete fixture: a ledger holding only exGoal. -/
def exState : St :=
  { goals := some (fun k => if k = 1 then some exGoal else none),
    next_id := some 1, total_saved := some 95, active_count := some 1,
    completed_count := some 0 }

end Sav

/-! ## Helper lemmas -/

namespace RemSplit

/-- The three floored shares never exceed the total when the first three
percentages sum to at most 100. -/
theorem floors_le_total (t : Int) (p1 p2 p3 : Nat) (ht : 0 ≤ t)
    (hp : p1 + p2 + p3 ≤ 100) :
    t * (p1 : Int) / 100 + t * (p2 : Int) / 100 + t * (p3 : Int) / 100 ≤ t := by
  have h1 : t * (p1 : Int) / 100 * 100 ≤ t * (p1 : Int) :=
    Int.ediv_mul_le _ (by norm_num)
  have h2 : t * (p2 : Int) / 100 * 100 ≤ t * (p2 : Int) :=
    Int.ediv_mul_le _ (by norm_num)
  have h3 : t * (p3 : Int) / 100 * 100 ≤ t * (p3 : Int) :=
    Int.ediv_mul_le _ (by norm_num)
  have hcast : ((p1 : Int) + p2 + p3) ≤ 100 := by exact_mod_cast hp
  have hsum : t * (p1 : Int) + t * (p2 : Int) + t * (p3 : Int) ≤ t * 100 := by
    have := mul_le_mul_of_nonneg_left hcast ht
    linarith [this]
  have : (t * (p1 : Int) / 100 + t * (p2 : Int) / 100 + t * (p3 : Int) / 100) * 100 ≤
      t * 100 := by linarith
  exact Int.le_of_mul_le_mul_right this (by norm_num)

/-- On a nonnegative total the truncating division used by the source
agrees with floor division. -/
theorem tdiv_share_eq (t : Int) (p : Nat) (ht : 0 ≤ t) :
    Int.tdiv (t * (p : Int)) 100 = t * (p : Int) / 100 :=
  Int.tdiv_eq_ediv (mul_nonneg ht (Int.natCast_nonneg _)) (by norm_num)

/-- Closed form of calculate_split on a stored configuration and a
positive total. -/
theorem calculate_split_eq (s : SplitState) (p1 p2 p3 p4 : Nat) (t : Int)
    (hcfg : s.split = some (p1, p2, p3, p4)) (ht : 0 < t) :
    calculate_split s t =
      some [t * (p1 : Int) / 100, t * (p2 : Int) / 100, t * (p3 : Int) / 100,
            t - t * (p1 : Int) / 100 - t * (p2 : Int) / 100 - t * (p3 : Int) / 100] := by
  have hget : get_split s = (p1, p2, p3, p4) := by
    simp [get_split, hcfg]
  unfold calculate_split
  rw [if_neg (not_le.mpr ht), hget]
  simp only [tdiv_share_eq _ _ ht.le]

end RemSplit

/-! ## Claim theorems and witnesses -/

open RemSplit Bills Ins Sav

/-- C1: for every total_amount > 0 and every stored valid configuration
(four non-negative percentages summing to 100), calculate_split returns
the four amounts [spend, save, bills, insurance] whose first three are
the floor divisions total_amount * pct / 100 in order spend, save,
bills, whose last is the exact remainder, and which sum exactly to
total_amount. -/
theorem c1_calculate_split_floor_exact_sum (s : SplitState) (p1 p2 p3 p4 : Nat)
    (t : Int) (hcfg : s.split = some (p1, p2, p3, p4))
    (hsum : p1 + p2 + p3 + p4 = 100) (ht : 0 < t) :
    calculate_split s t =
      some [t * (p1 : Int) / 100, t * (p2 : Int) / 100, t * (p3 : Int) / 100,
            t - t * (p1 : Int) / 100 - t * (p2 : Int) / 100 - t * (p3 : Int) / 100] ∧
    t * (p1 : Int) / 100 + t * (p2 : Int) / 100 + t * (p3 : Int) / 100 +
      (t - t * (p1 : Int) / 100 - t * (p2 : Int) / 100 - t * (p3 : Int) / 100) = t :=
  ⟨calculate_split_eq s p1 p2 p3 p4 t hcfg ht, by ring⟩

/-- Witness for C1 at the spec's adversarial example: configuration
(33, 33, 33, 1) against total 100. -/
theorem c1_witness :
    (({ split := some (33, 33, 33, 1), config := none } : SplitState).split =
        some (33, 33, 33, 1) ∧ 33 + 33 + 33 + 1 = 100 ∧ (0 : Int) < 100) ∧
    calculate_split { split := some (33, 33, 33, 1), config := none } 100 =
      some [(100 : Int) * (33 : Nat) / 100, 100 * (33 : Nat) / 100,
            100 * (33 : Nat) / 100,
            100 - 100 * (33 : Nat) / 100 - 100 * (33 : Nat) / 100 -
              100 * (33 : Nat) / 100] :=
  ⟨⟨rfl, by decide, by decide⟩,
    (c1_calculate_split_floor_exact_sum _ 33 33 33 1 100 rfl (by decide) (by decide)).1⟩

/-- C9: for every total_amount > 0 and every stored configuration of four
non-negative percentages summing to 100, every amount returned by
calculate_split is non-negative, including the subtraction-assigned
insurance amount. -/
theorem c9_calculate_split_nonneg (s : SplitState) (p1 p2 p3 p4 : Nat)
    (t : Int) (hcfg : s.split = some (p1, p2, p3, p4))
    (hsum : p1 + p2 + p3 + p4 = 100) (ht : 0 < t) :
    ∃ l, calculate_split s t = some l ∧ ∀ x ∈ l, 0 ≤ x := by
  refine ⟨_, calculate_split_eq s p1 p2 p3 p4 t hcfg ht, ?_⟩
  have h1 : 0 ≤ t * (p1 : Int) / 100 :=
    Int.ediv_nonneg (mul_nonneg ht.le (Int.natCast_nonneg _)) (by norm_num)
  have h2 : 0 ≤ t * (p2 : Int) / 100 :=
    Int.ediv_nonneg (mul_nonneg ht.le (Int.natCast_nonneg _)) (by norm_num)
  have h3 : 0 ≤ t * (p3 : Int) / 100 :=
    Int.ediv_nonneg (mul_nonneg ht.le (Int.natCast_nonneg _)) (by norm_num)
  have hle : t * (p1 : Int) / 100 + t * (p2 : Int) / 100 + t * (p3 : Int) / 100 ≤ t :=
    floors_le_total t p1 p2 p3 ht.le (by omega)
  intro x hx
  simp only [List.mem_cons, List.not_mem_nil, or_false] at hx
  rcases hx with h | h | h | h <;> subst h
  · exact h1
  · exact h2
  · exact h3
  · linarith

/-- Witness for C9: configuration (50, 30, 15, 5), total 1. -/
theorem c9_witness :
    (({ split := some (50, 30, 15, 5), config := none } : SplitState).split =
        some (50, 30, 15, 5) ∧ 50 + 30 + 15 + 5 = 100 ∧ (0 : Int) < 1) ∧
    ∃ l, calculate_split { split := some (50, 30, 15, 5), config := none } 1 =
      some l ∧ ∀ x ∈ l, 0 ≤ x :=
  ⟨⟨rfl, by decide, by decide⟩,
    c9_calculate_split_nonneg _ 50 30 15 5 1 rfl (by decide) (by decide)⟩

/-- C7: both configure entry points reject, without persisting anything,
every percentage quadruple whose sum differs from 100, and accept every
quadruple summing exactly to 100, the update replacing the stored
configuration. -/
theorem c7_configure_sum_check :
    (∀ (s : SplitState) (owner p1 p2 p3 p4 : Nat), s.config = none →
      p1 + p2 + p3 + p4 ≠ 100 →
      initialize_split s owner p1 p2 p3 p4 = some (false, s)) ∧
    (∀ (s : SplitState) (cfg : SplitConfig) (owner p1 p2 p3 p4 : Nat),
      s.config = some cfg → cfg.owner = owner → p1 + p2 + p3 + p4 ≠ 100 →
      update_split s owner p1 p2 p3 p4 = some (false, s)) ∧
    (∀ (s : SplitState) (owner p1 p2 p3 p4 : Nat), s.config = none →
      p1 + p2 + p3 + p4 = 100 →
      initialize_split s owner p1 p2 p3 p4 =
        some (true, { split := some (p1, p2, p3, p4),
                      config := some ⟨owner, p1, p2, p3, p4, true⟩ })) ∧
    (∀ (s : SplitState) (cfg : SplitConfig) (owner p1 p2 p3 p4 : Nat),
      s.config = some cfg → cfg.owner = owner → p1 + p2 + p3 + p4 = 100 →
      update_split s owner p1 p2 p3 p4 =
        some (true, { split := some (p1, p2, p3, p4),
                      config := some ⟨owner, p1, p2, p3, p4, true⟩ })) := by
  refine ⟨?_, ?_, ?_, ?_⟩
  · intro s owner p1 p2 p3 p4 hc hne
    simp [initialize_split, hc, hne]
  · intro s cfg owner p1 p2 p3 p4 hc hown hne
    simp [update_split, hc, hown, hne]
  · intro s owner p1 p2 p3 p4 hc hsum
    simp [initialize_split, hc, hsum]
  · intro s cfg owner p1 p2 p3 p4 hc hown hsum
    simp [update_split, hc, hown, hsum]

/-- Witness for C7 at the spec's examples: an owned configuration rejects
(50, 30, 15, 4) and (50, 30, 15, 6) and accepts (50, 30, 15, 5). -/
theorem c7_witness :
    (({ split := some (50, 30, 15, 5),
        config := some ⟨7, 50, 30, 15, 5, true⟩ } : SplitState).config =
          some ⟨7, 50, 30, 15, 5, true⟩ ∧
      (⟨7, 50, 30, 15, 5, true⟩ : SplitConfig).owner = 7 ∧
      50 + 30 + 15 + 4 ≠ 100 ∧ 50 + 30 + 15 + 6 ≠ 100 ∧
      50 + 30 + 15 + 5 = 100) ∧
    update_split { split := some (50, 30, 15, 5),
                   config := some ⟨7, 50, 30, 15, 5, true⟩ } 7 50 30 15 4 =
      some (false, { split := some (50, 30, 15, 5),
                     config := some ⟨7, 50, 30, 15, 5, true⟩ }) ∧
    update_split { split := some (50, 30, 15, 5),
                   config := some ⟨7, 50, 30, 15, 5, true⟩ } 7 50 30 15 6 =
      some (false, { split := some (50, 30, 15, 5),
                     config := some ⟨7, 50, 30, 15, 5, true⟩ }) ∧
    update_split { split := some (50, 30, 15, 5),
                   config := some ⟨7, 50, 30, 15, 5, true⟩ } 7 50 30 15 5 =
      some (true, { split := some (50, 30, 15, 5),
                    config := some ⟨7, 50, 30, 15, 5, true⟩ }) :=
  ⟨⟨rfl, rfl, by decide, by decide, by decide⟩,
    c7_configure_sum_check.2.1 _ ⟨7, 50, 30, 15, 5, true⟩ 7 50 30 15 4 rfl rfl (by decide),
    c7_configure_sum_check.2.1 _ ⟨7, 50, 30, 15, 5, true⟩ 7 50 30 15 6 rfl rfl (by decide),
    c7_configure_sum_check.2.2.2 _ ⟨7, 50, 30, 15, 5, true⟩ 7 50 30 15 5 rfl rfl (by decide)⟩

/-- On an unknown id, pay_bill is (false, s): the scrutinized map read is
none. -/
theorem pay_bill_unknown (s : Bills.St) (bill_id : Nat)
    (h : billsOf s bill_id = none) :
    pay_bill s bill_id = (false, s) := by
  simp only [Bills.pay_bill, h]

/-- On an already-paid bill, pay_bill is (false, s). -/
theorem pay_bill_paid (s : Bills.St) (bill_id : Nat) (bill : Bill)
    (hb : billsOf s bill_id = some bill) (hp : bill.paid = true) :
    pay_bill s bill_id = (false, s) := by
  simp only [Bills.pay_bill, hb, hp, if_true]

/-- Closed form of pay_bill on an open recurring bill. -/
theorem pay_bill_open_recurring (s : Bills.St) (bill_id : Nat) (bill : Bill)
    (hb : billsOf s bill_id = some bill) (hopen : bill.paid = false)
    (hrec : bill.recurring = true) :
    pay_bill s bill_id = (true,
      { s with
        bills := some (fun k =>
          if k = s.next_id.getD 0 + 1 then
            some { id := s.next_id.getD 0 + 1, amount := bill.amount,
                   due_date := bill.due_date + bill.frequency_days * 86400,
                   frequency_days := bill.frequency_days, paid := false,
                   recurring := true, name := bill.name }
          else if k = bill_id then some { bill with paid := true }
          else billsOf s k),
        next_id := some (s.next_id.getD 0 + 1) }) := by
  simp only [Bills.pay_bill, hb, hopen, hrec, Bool.false_eq_true, if_false, if_true]

/-- Closed form of pay_bill on an open non-recurring bill. -/
theorem pay_bill_open_oneshot (s : Bills.St) (bill_id : Nat) (bill : Bill)
    (hb : billsOf s bill_id = some bill) (hopen : bill.paid = false)
    (hrec : bill.recurring = false) :
    pay_bill s bill_id = (true,
      { s with
        bills := some (fun k =>
          if k = bill_id then some { bill with paid := true } else billsOf s k),
        unpaid_count := some (s.unpaid_count.getD 1 - 1) }) := by
  simp only [Bills.pay_bill, hb, hopen, hrec, Bool.false_eq_true, if_false]

/-- C5: settling an id that is not present in the record map returns
false and leaves the entire state — record map, sequence counter and
cached aggregates — unchanged. -/
theorem c5_settle_unknown_id_noop (s : Bills.St) (bill_id : Nat)
    (h : billsOf s bill_id = none) :
    pay_bill s bill_id = (false, s) :=
  pay_bill_unknown s bill_id h

/-- Witness for C5: id 3 on a one-bill ledger. -/
theorem c5_witness :
    billsOf Bills.exState 3 = none ∧
    pay_bill Bills.exState 3 = (false, Bills.exState) :=
  ⟨rfl, c5_settle_unknown_id_noop Bills.exState 3 rfl⟩

/-- C3: on an Open record whose id is within the issued range, the first
settle returns true and flips the record to Settled; the immediately
following settle of the same id returns false and leaves the whole state
(record map and cached aggregates) unchanged. -/
theorem c3_settle_exactly_once (s : Bills.St) (bill_id : Nat) (bill : Bill)
    (hb : billsOf s bill_id = some bill) (hopen : bill.paid = false)
    (hle : bill_id ≤ Bills.nidOf s) :
    ∃ s1, pay_bill s bill_id = (true, s1) ∧
      billsOf s1 bill_id = some { bill with paid := true } ∧
      pay_bill s1 bill_id = (false, s1) := by
  have hne : bill_id ≠ s.next_id.getD 0 + 1 := by
    simp only [Bills.nidOf] at hle; omega
  by_cases hr : bill.recurring
  · refine ⟨_, pay_bill_open_recurring s bill_id bill hb hopen hr, ?_⟩
    have hmem : billsOf
        { s with
          bills := some (fun k =>
            if k = s.next_id.getD 0 + 1 then
              some { id := s.next_id.getD 0 + 1, amount := bill.amount,
                     due_date := bill.due_date + bill.frequency_days * 86400,
                     frequency_days := bill.frequency_days, paid := false,
                     recurring := true, name := bill.name }
            else if k = bill_id then some { bill with paid := true }
            else billsOf s k),
          next_id := some (s.next_id.getD 0 + 1) } bill_id =
        some { bill with paid := true } := by
      simp [billsOf, hne]
    exact ⟨hmem, pay_bill_paid _ bill_id _ hmem rfl⟩
  · have hr' : bill.recurring = false := by
      cases h : bill.recurring
      · rfl
      · exact absurd h hr
    refine ⟨_, pay_bill_open_oneshot s bill_id bill hb hopen hr', ?_⟩
    have hmem : billsOf
        { s with
          bills := some (fun k =>
            if k = bill_id then some { bill with paid := true } else billsOf s k),
          unpaid_count := some (s.unpaid_count.getD 1 - 1) } bill_id =
        some { bill with paid := true } := by
      simp [billsOf]
    exact ⟨hmem, pay_bill_paid _ bill_id _ hmem rfl⟩

/-- Witness for C3: settling bill 1 of the one-bill fixture twice. -/
theorem c3_witness :
    (billsOf Bills.exState 1 = some Bills.exBill ∧
      Bills.exBill.paid = false ∧ 1 ≤ Bills.nidOf Bills.exState) ∧
    ∃ s1, pay_bill Bills.exState 1 = (true, s1) ∧
      billsOf s1 1 = some { Bills.exBill with paid := true } ∧
      pay_bill s1 1 = (false, s1) :=
  ⟨⟨rfl, rfl, by decide⟩,
    c3_settle_exactly_once Bills.exState 1 Bills.exBill rfl rfl (by decide)⟩

/-- C4: successfully settling an Open recurring record creates exactly
one successor record under the fresh id NEXT_ID + 1, due exactly
frequency_days * 86400 seconds after the old due date, Open, with the
same recurrence flag, frequency and amount; every other id is untouched
and the settled record itself is marked paid. -/
theorem c4_recurring_settle_spawns_successor (s : Bills.St) (bill_id : Nat)
    (bill : Bill) (hb : billsOf s bill_id = some bill)
    (hopen : bill.paid = false) (hrec : bill.recurring = true)
    (hle : bill_id ≤ Bills.nidOf s) :
    ∃ s1, pay_bill s bill_id = (true, s1) ∧
      s1.next_id = some (Bills.nidOf s + 1) ∧
      billsOf s1 (Bills.nidOf s + 1) = some
        { id := Bills.nidOf s + 1, amount := bill.amount,
          due_date := bill.due_date + bill.frequency_days * 86400,
          frequency_days := bill.frequency_days, paid := false,
          recurring := true, name := bill.name } ∧
      billsOf s1 bill_id = some { bill with paid := true } ∧
      (∀ k, k ≠ bill_id → k ≠ Bills.nidOf s + 1 → billsOf s1 k = billsOf s k) := by
  have hne : bill_id ≠ s.next_id.getD 0 + 1 := by
    simp only [Bills.nidOf] at hle; omega
  refine ⟨_, pay_bill_open_recurring s bill_id bill hb hopen hrec, rfl, ?_, ?_, ?_⟩
  · simp [billsOf, Bills.nidOf]
  · simp [billsOf, hne]
  · intro k hk1 hk2
    simp only [Bills.nidOf] at hk2
    simp [billsOf, hk1, hk2]

/-- Witness for C4 at the spec's example: frequency 30 days, due
1704067200; the successor is due 1706659200. -/
theorem c4_witness :
    (billsOf Bills.exRecState 1 = some Bills.exRecBill ∧
      Bills.exRecBill.paid = false ∧ Bills.exRecBill.recurring = true ∧
      1 ≤ Bills.nidOf Bills.exRecState ∧
      Bills.exRecBill.due_date + Bills.exRecBill.frequency_days * 86400 =
        1706659200) ∧
    ∃ s1, pay_bill Bills.exRecState 1 = (true, s1) ∧
      s1.next_id = some (Bills.nidOf Bills.exRecState + 1) ∧
      billsOf s1 (Bills.nidOf Bills.exRecState + 1) = some
        { id := Bills.nidOf Bills.exRecState + 1, amount := Bills.exRecBill.amount,
          due_date := Bills.exRecBill.due_date +
            Bills.exRecBill.frequency_days * 86400,
          frequency_days := Bills.exRecBill.frequency_days, paid := false,
          recurring := true, name := Bills.exRecBill.name } ∧
      billsOf s1 1 = some { Bills.exRecBill with paid := true } ∧
      (∀ k, k ≠ 1 → k ≠ Bills.nidOf Bills.exRecState + 1 →
        billsOf s1 k = billsOf Bills.exRecState k) :=
  ⟨⟨rfl, rfl, rfl, by decide, by decide⟩,
    c4_recurring_settle_spawns_successor Bills.exRecState 1 Bills.exRecBill
      rfl rfl rfl (by decide)⟩

/-- C6: both create operations validate before any state mutation (a
panicking call carries no successor state, so the transaction leaves
NEXT_ID, the record map and the cached aggregates untouched):
create_bill fails on every amount ≤ 0, and create_goal fails on every
target_amount ≤ 0 and on every target_date not strictly after the
ledger clock. -/
theorem c6_create_validates_first :
    (∀ (s : Bills.St) (name : String) (amount : Int) (due : Nat)
      (recurring : Bool) (freq : Nat), amount ≤ 0 →
      create_bill s name amount due recurring freq = none) ∧
    (∀ (s : Sav.St) (name : String) (target_amount : Int) (target_date now : Nat),
      target_amount ≤ 0 →
      create_goal s name target_amount target_date now = none) ∧
    (∀ (s : Sav.St) (name : String) (target_amount : Int) (target_date now : Nat),
      target_date ≤ now →
      create_goal s name target_amount target_date now = none) := by
  refine ⟨?_, ?_, ?_⟩
  · intro s name amount due recurring freq h
    simp [Bills.create_bill, h]
  · intro s name target_amount target_date now h
    simp [Sav.create_goal, h]
  · intro s name target_amount target_date now h
    by_cases ha : target_amount ≤ 0
    · simp [Sav.create_goal, ha]
    · simp [Sav.create_goal, ha, h]

/-- Witness for C6: amounts 0 and -3 and an in-the-past target date. -/
theorem c6_witness :
    ((0 : Int) ≤ 0 ∧ (-3 : Int) ≤ 0 ∧ 5 ≤ 10) ∧
    create_bill Bills.exState "phone" 0 99 false 0 = none ∧
    create_goal Sav.exState "bike" (-3) 99 0 = none ∧
    create_goal Sav.exState "bike" 1 5 10 = none :=
  ⟨⟨by decide, by decide, by decide⟩,
    c6_create_validates_first.1 Bills.exState "phone" 0 99 false 0 (by decide),
    c6_create_validates_first.2.1 Sav.exState "bike" (-3) 99 0 (by decide),
    c6_create_validates_first.2.2 Sav.exState "bike" 1 5 10 (by decide)⟩

/-- C10: on an existing goal and a positive amount, add_to_goal succeeds
and adds exactly the amount to current_amount regardless of whether the
goal is already completed (the target is not a cap), and the completed
counter is bumped exactly on the transition from below target to
at-or-above target. -/
theorem add_to_goal_crossing (s : Sav.St) (goal_id : Nat) (g : SavingsGoal)
    (amount : Int) (hg : goalsOf s goal_id = some g) (ha : ¬ amount ≤ 0)
    (hc : ¬ g.target_amount ≤ g.current_amount ∧
      g.target_amount ≤ g.current_amount + amount) :
    add_to_goal s goal_id amount = .ok (g.current_amount + amount,
      { s with
        goals := some (fun k => if k = goal_id then
          some { g with current_amount := g.current_amount + amount }
          else goalsOf s k),
        total_saved := some (s.total_saved.getD 0 + amount),
        completed_count := some (s.completed_count.getD 0 + 1),
        active_count := some (s.active_count.getD 1 - 1) }) := by
  simp only [Sav.add_to_goal, ha, if_false, hg]
  rw [if_pos hc]

theorem add_to_goal_noncrossing (s : Sav.St) (goal_id : Nat) (g : SavingsGoal)
    (amount : Int) (hg : goalsOf s goal_id = some g) (ha : ¬ amount ≤ 0)
    (hc : ¬ (¬ g.target_amount ≤ g.current_amount ∧
      g.target_amount ≤ g.current_amount + amount)) :
    add_to_goal s goal_id amount = .ok (g.current_amount + amount,
      { s with
        goals := some (fun k => if k = goal_id then
          some { g with current_amount := g.current_amount + amount }
          else goalsOf s k),
        total_saved := some (s.total_saved.getD 0 + amount) }) := by
  simp only [Sav.add_to_goal, ha, if_false, hg]
  rw [if_neg hc]

theorem c10_add_to_goal_uncapped (s : Sav.St) (goal_id : Nat)
    (g : SavingsGoal) (amount : Int)
    (hg : goalsOf s goal_id = some g) (ha : 0 < amount) :
    ∃ s1, add_to_goal s goal_id amount =
        .ok (g.current_amount + amount, s1) ∧
      goalsOf s1 goal_id = some { g with current_amount := g.current_amount + amount } ∧
      (∀ k, k ≠ goal_id → goalsOf s1 k = goalsOf s k) ∧
      s1.total_saved = some (s.total_saved.getD 0 + amount) ∧
      s1.completed_count =
        (if g.current_amount < g.target_amount ∧
            g.target_amount ≤ g.current_amount + amount
          then some (s.completed_count.getD 0 + 1) else s.completed_count) ∧
      s1.next_id = s.next_id := by
  have ha' : ¬ amount ≤ 0 := not_le.mpr ha
  by_cases hc : ¬ g.target_amount ≤ g.current_amount ∧
      g.target_amount ≤ g.current_amount + amount
  · refine ⟨_, add_to_goal_crossing s goal_id g amount hg ha' hc, ?_, ?_, rfl, ?_, rfl⟩
    · simp [goalsOf]
    · intro k hk
      simp [goalsOf, hk]
    · rw [if_pos ⟨not_le.mp hc.1, hc.2⟩]
  · refine ⟨_, add_to_goal_noncrossing s goal_id g amount hg ha' hc, ?_, ?_, rfl, ?_, rfl⟩
    · simp [goalsOf]
    · intro k hk
      simp [goalsOf, hk]
    · rw [if_neg (fun h => hc ⟨not_le.mpr h.1, h.2⟩)]

/-- Witness for C10: adding 10 to the fixture goal (95 of 100) crosses
the target, so the completed counter bumps from 0 to 1. -/
theorem c10_witness :
    (goalsOf Sav.exState 1 = some Sav.exGoal ∧ (0 : Int) < 10) ∧
    ∃ s1, add_to_goal Sav.exState 1 10 =
        .ok (Sav.exGoal.current_amount + 10, s1) ∧
      goalsOf s1 1 = some { Sav.exGoal with
        current_amount := Sav.exGoal.current_amount + 10 } ∧
      (∀ k, k ≠ 1 → goalsOf s1 k = goalsOf Sav.exState k) ∧
      s1.total_saved = some (Sav.exState.total_saved.getD 0 + 10) ∧
      s1.completed_count =
        (if Sav.exGoal.current_amount < Sav.exGoal.target_amount ∧
            Sav.exGoal.target_amount ≤ Sav.exGoal.current_amount + 10
          then some (Sav.exState.completed_count.getD 0 + 1)
          else Sav.exState.completed_count) ∧
      s1.next_id = Sav.exState.next_id :=
  ⟨⟨rfl, by decide⟩, c10_add_to_goal_uncapped Sav.exState 1 Sav.exGoal 10 rfl (by decide)⟩

/-- The filterMap body of get_unpaid_bills produces some b exactly from
an unpaid stored bill. -/
theorem unpaid_body_some (s : Bills.St) (a : Nat) (b : Bill)
    (h : (match billsOf s a with
          | some bill => if bill.paid then none else some bill
          | none => none) = some b) :
    billsOf s a = some b ∧ b.paid = false := by
  cases hba : billsOf s a with
  | none => rw [hba] at h; simp at h
  | some bill =>
    rw [hba] at h
    by_cases hp : bill.paid = true
    · simp [hp] at h
    · simp [hp] at h
      subst h
      exact ⟨rfl, by simpa using hp⟩

/-- C8: list_open returns exactly the Open records — membership holds
precisely for stored unpaid bills — in ascending id order; and the id a
successful create assigns is strictly above every id already in the map. -/
theorem c8_list_open_exact_and_sorted (s : Bills.St)
    (hsupp : ∀ i b, billsOf s i = some b → 1 ≤ i ∧ i ≤ Bills.nidOf s)
    (hids : ∀ i b, billsOf s i = some b → b.id = i) :
    (∀ b, b ∈ get_unpaid_bills s ↔ billsOf s b.id = some b ∧ b.paid = false) ∧
    List.Pairwise (fun a c => a.id < c.id) (get_unpaid_bills s) ∧
    (∀ (name : String) (amount : Int) (due : Nat) (recurring : Bool)
      (freq newId : Nat) (s1 : Bills.St),
      create_bill s name amount due recurring freq = some (newId, s1) →
      ∀ i b, billsOf s i = some b → i < newId) := by
  refine ⟨?_, ?_, ?_⟩
  · intro b
    constructor
    · intro hb
      obtain ⟨a, _, hfa⟩ := List.mem_filterMap.mp hb
      obtain ⟨hba, hp⟩ := unpaid_body_some s a b hfa
      have hid : b.id = a := hids a b hba
      rw [hid]
      exact ⟨hba, hp⟩
    · rintro ⟨hb, hp⟩
      refine List.mem_filterMap.mpr ⟨b.id, ?_, ?_⟩
      · have := hsupp b.id b hb
        simp only [List.mem_range'_1]
        omega
      · rw [hb]
        simp [hp]
  · apply List.pairwise_filterMap.mpr
    apply (List.pairwise_lt_range' 1 (Bills.nidOf s) 1 (by simp)).imp
    intro a a' haa' b hb b' hb'
    obtain ⟨hba, -⟩ := unpaid_body_some s a b hb
    obtain ⟨hba', -⟩ := unpaid_body_some s a' b' hb'
    rw [hids a b hba, hids a' b' hba']
    exact haa'
  · intro name amount due recurring freq newId s1 hcr i b hib
    unfold Bills.create_bill at hcr
    split at hcr
    · exact absurd hcr (by simp)
    · have hnew : newId = Bills.nidOf s + 1 := by
        have := congrArg (fun o => Option.map Prod.fst o) hcr
        simpa using this.symm
      have := hsupp i b hib
      omega

/-- Witness for C8 on the one-bill fixture. -/
theorem c8_witness :
    (∀ i b, billsOf Bills.exState i = some b →
      1 ≤ i ∧ i ≤ Bills.nidOf Bills.exState) ∧
    (∀ i b, billsOf Bills.exState i = some b → b.id = i) ∧
    ((∀ b, b ∈ get_unpaid_bills Bills.exState ↔
        billsOf Bills.exState b.id = some b ∧ b.paid = false) ∧
      List.Pairwise (fun a c => a.id < c.id) (get_unpaid_bills Bills.exState) ∧
      (∀ (name : String) (amount : Int) (due : Nat) (recurring : Bool)
        (freq newId : Nat) (s1 : Bills.St),
        create_bill Bills.exState name amount due recurring freq = some (newId, s1) →
        ∀ i b, billsOf Bills.exState i = some b → i < newId)) := by
  have hsupp : ∀ i b, billsOf Bills.exState i = some b →
      1 ≤ i ∧ i ≤ Bills.nidOf Bills.exState := by
    intro i b h
    by_cases hi : i = 1
    · subst hi; exact ⟨Nat.le_refl 1, Nat.le_refl 1⟩
    · exact absurd h (by simp [billsOf, Bills.exState, hi])
  have hids : ∀ i b, billsOf Bills.exState i = some b → b.id = i := by
    intro i b h
    by_cases hi : i = 1
    · subst hi
      simp only [billsOf, Bills.exState] at h
      simp only [Option.getD_some, if_pos rfl] at h
      cases h
      rfl
    · exact absurd h (by simp [billsOf, Bills.exState, hi])
  exact ⟨hsupp, hids, c8_list_open_exact_and_sorted Bills.exState hsupp hids⟩

/-- Appending one id on top of the range: sums over 1..=nid+1 of a
function agreeing below with the old one. -/
theorem sum_insert_top {M : Type} [AddCommMonoid M] (h h' : Nat → M) (nid : Nat)
    (agree : ∀ i, 1 ≤ i → i ≤ nid → h' i = h i) :
    ∑ i ∈ Finset.Icc 1 (nid + 1), h' i =
      (∑ i ∈ Finset.Icc 1 nid, h i) + h' (nid + 1) := by
  rw [Finset.sum_Icc_succ_top (by omega)]
  congr 1
  apply Finset.sum_congr rfl
  intro i hi
  simp only [Finset.mem_Icc] at hi
  exact agree i hi.1 hi.2

/-- Updating one member id: an exchange identity avoiding subtraction. -/
theorem sum_update_at {M : Type} [AddCommMonoid M] (h h' : Nat → M)
    (a b j : Nat) (hj : j ∈ Finset.Icc a b)
    (agree : ∀ i ∈ Finset.Icc a b, i ≠ j → h' i = h i) :
    (∑ i ∈ Finset.Icc a b, h' i) + h j = (∑ i ∈ Finset.Icc a b, h i) + h' j := by
  rw [← Finset.add_sum_erase _ h' hj, ← Finset.add_sum_erase _ h hj]
  have : ∑ i ∈ (Finset.Icc a b).erase j, h' i =
      ∑ i ∈ (Finset.Icc a b).erase j, h i := by
    apply Finset.sum_congr rfl
    intro i hi
    exact agree i (Finset.mem_of_mem_erase hi) (Finset.ne_of_mem_erase hi)
  rw [this]
  abel

/-- The invariant holds in the explicitly initialized state. -/
theorem inv_initState : Ins.Inv Ins.initState := by
  refine ⟨?_, ?_, ?_, ?_⟩
  · intro i hi
    simp [Ins.polsOf, Ins.initState] at hi
  · rintro ⟨i, hi⟩
    simp [Ins.polsOf, Ins.initState] at hi
  · simp [Ins.initState, Ins.trueCount, Ins.nidOf]
  · simp [Ins.initState, Ins.trueSum, Ins.nidOf]

/-- The invariant holds in the never-initialized all-absent state. -/
theorem inv_defaultState : Ins.Inv Ins.defaultState := by
  refine ⟨?_, ?_, ?_, ?_⟩
  · intro i hi
    simp [Ins.polsOf, Ins.defaultState] at hi
  · rintro ⟨i, hi⟩
    simp [Ins.polsOf, Ins.defaultState] at hi
  · simp [Ins.defaultState, Ins.trueCount, Ins.nidOf]
  · simp [Ins.defaultState, Ins.trueSum, Ins.nidOf]

/-- Inserting an active policy on top of the issued range adds one to the
true count. -/
theorem trueCount_insert (s : Ins.St) (pol : Ins.Policy) (hact : pol.active = true) :
    ∑ i ∈ Finset.Icc 1 (Ins.nidOf s + 1),
      Ins.activeCntAt (fun k => if k = Ins.nidOf s + 1 then some pol else Ins.polsOf s k) i =
      Ins.trueCount s + 1 := by
  rw [sum_insert_top (fun i => Ins.activeCntAt (Ins.polsOf s) i) _ (Ins.nidOf s)
    (fun i h1 h2 => by
      have hne : i ≠ Ins.nidOf s + 1 := by omega
      simp [Ins.activeCntAt, hne])]
  simp [Ins.activeCntAt, hact, Ins.trueCount]

/-- Inserting an active policy on top of the issued range adds its
premium to the true total. -/
theorem trueSum_insert (s : Ins.St) (pol : Ins.Policy) (hact : pol.active = true) :
    ∑ i ∈ Finset.Icc 1 (Ins.nidOf s + 1),
      Ins.activePremAt (fun k => if k = Ins.nidOf s + 1 then some pol else Ins.polsOf s k) i =
      Ins.trueSum s + pol.monthly_premium := by
  rw [sum_insert_top (fun i => Ins.activePremAt (Ins.polsOf s) i) _ (Ins.nidOf s)
    (fun i h1 h2 => by
      have hne : i ≠ Ins.nidOf s + 1 := by omega
      simp [Ins.activePremAt, hne])]
  simp [Ins.activePremAt, hact, Ins.trueSum]

/-- The invariant is preserved by the successor state of a successful
create_policy. -/
theorem inv_create_result (s : Ins.St) (pol : Ins.Policy) (hact : pol.active = true)
    (h : Ins.Inv s) :
    Ins.Inv
      { policies := some (fun k =>
          if k = Ins.nidOf s + 1 then some pol else Ins.polsOf s k),
        next_id := some (Ins.nidOf s + 1),
        active_count := some (s.active_count.getD 0 + 1),
        total_premium := some (s.total_premium.getD 0 + pol.monthly_premium) } := by
  obtain ⟨hsupp, hcells, hcnt, htot⟩ := h
  refine ⟨?_, ?_, ?_, ?_⟩
  · intro i hi
    simp only [Ins.polsOf, Option.getD_some] at hi
    by_cases hie : i = Ins.nidOf s + 1
    · subst hie
      exact ⟨by omega, Nat.le_refl _⟩
    · rw [if_neg hie] at hi
      have := hsupp i hi
      show 1 ≤ i ∧ i ≤ Ins.nidOf s + 1
      omega
  · intro _
    exact ⟨rfl, rfl⟩
  · show s.active_count.getD 0 + 1 = _
    rw [hcnt]
    exact (trueCount_insert s pol hact).symm
  · show s.total_premium.getD 0 + pol.monthly_premium = _
    rw [htot]
    exact (trueSum_insert s pol hact).symm

/-- Deactivating a stored active policy removes one from the true count. -/
theorem trueCount_update_inactive (s : Ins.St) (pid : Nat) (pol : Ins.Policy)
    (hpid : Ins.polsOf s pid = some pol) (hact : pol.active = true)
    (hmem : pid ∈ Finset.Icc 1 (Ins.nidOf s)) :
    (∑ i ∈ Finset.Icc 1 (Ins.nidOf s),
      Ins.activeCntAt (fun k => if k = pid then some { pol with active := false }
        else Ins.polsOf s k) i) + 1 = Ins.trueCount s := by
  have hx := sum_update_at (fun i => Ins.activeCntAt (Ins.polsOf s) i)
    (fun i => Ins.activeCntAt (fun k => if k = pid then some { pol with active := false }
      else Ins.polsOf s k) i) 1 (Ins.nidOf s) pid hmem
    (fun i _ hne => by simp [Ins.activeCntAt, hne])
  have h1 : Ins.activeCntAt (Ins.polsOf s) pid = 1 := by
    simp [Ins.activeCntAt, hpid, hact]
  have h2 : Ins.activeCntAt (fun k => if k = pid then some { pol with active := false }
      else Ins.polsOf s k) pid = 0 := by
    simp [Ins.activeCntAt]
  simp only [h1, h2] at hx
  simpa [Ins.trueCount] using hx

/-- Deactivating a stored active policy subtracts its premium from the
true total. -/
theorem trueSum_update_inactive (s : Ins.St) (pid : Nat) (pol : Ins.Policy)
    (hpid : Ins.polsOf s pid = some pol) (hact : pol.active = true)
    (hmem : pid ∈ Finset.Icc 1 (Ins.nidOf s)) :
    (∑ i ∈ Finset.Icc 1 (Ins.nidOf s),
      Ins.activePremAt (fun k => if k = pid then some { pol with active := false }
        else Ins.polsOf s k) i) + pol.monthly_premium = Ins.trueSum s := by
  have hx := sum_update_at (fun i => Ins.activePremAt (Ins.polsOf s) i)
    (fun i => Ins.activePremAt (fun k => if k = pid then some { pol with active := false }
      else Ins.polsOf s k) i) 1 (Ins.nidOf s) pid hmem
    (fun i _ hne => by simp [Ins.activePremAt, hne])
  have h1 : Ins.activePremAt (Ins.polsOf s) pid = pol.monthly_premium := by
    simp [Ins.activePremAt, hpid, hact]
  have h2 : Ins.activePremAt (fun k => if k = pid then some { pol with active := false }
      else Ins.polsOf s k) pid = 0 := by
    simp [Ins.activePremAt]
  simp only [h1, h2] at hx
  simpa [Ins.trueSum] using hx

/-- The invariant is preserved by the successor state of a successful
deactivate_policy. -/
theorem inv_deactivate_result (s : Ins.St) (pid : Nat) (pol : Ins.Policy)
    (hpid : Ins.polsOf s pid = some pol) (hact : pol.active = true)
    (h : Ins.Inv s) :
    Ins.Inv
      { s with
        policies := some (fun k => if k = pid then some { pol with active := false }
          else Ins.polsOf s k),
        active_count := some (s.active_count.getD 1 - 1),
        total_premium := some (s.total_premium.getD pol.monthly_premium -
          pol.monthly_premium) } := by
  obtain ⟨hsupp, hcells, hcnt, htot⟩ := h
  have hpsome : (Ins.polsOf s pid).isSome := by rw [hpid]; rfl
  have hmem : pid ∈ Finset.Icc 1 (Ins.nidOf s) := by
    have := hsupp pid hpsome
    simp only [Finset.mem_Icc]
    exact this
  obtain ⟨hac, htc⟩ := hcells ⟨pid, hpsome⟩
  obtain ⟨a, ha⟩ := Option.isSome_iff_exists.mp hac
  obtain ⟨t, ht⟩ := Option.isSome_iff_exists.mp htc
  refine ⟨?_, ?_, ?_, ?_⟩
  · intro i hi
    simp only [Ins.polsOf, Option.getD_some] at hi
    by_cases hie : i = pid
    · subst hie
      exact hsupp i hpsome
    · rw [if_neg hie] at hi
      exact hsupp i hi
  · intro _
    exact ⟨rfl, rfl⟩
  · show s.active_count.getD 1 - 1 =
      ∑ i ∈ Finset.Icc 1 (Ins.nidOf s),
        Ins.activeCntAt (fun k => if k = pid then some { pol with active := false }
          else Ins.polsOf s k) i
    rw [ha] at hcnt ⊢
    simp only [Option.getD_some] at hcnt ⊢
    have hc := trueCount_update_inactive s pid pol hpid hact hmem
    omega
  · show s.total_premium.getD pol.monthly_premium - pol.monthly_premium =
      ∑ i ∈ Finset.Icc 1 (Ins.nidOf s),
        Ins.activePremAt (fun k => if k = pid then some { pol with active := false }
          else Ins.polsOf s k) i
    rw [ht] at htot ⊢
    simp only [Option.getD_some] at htot ⊢
    have hc := trueSum_update_inactive s pid pol hpid hact hmem
    omega

/-- Every create/deactivate call preserves the aggregate-cache
invariant. -/
theorem inv_step (s : Ins.St) (op : Ins.Op) (h : Ins.Inv s) :
    Ins.Inv (Ins.step s op) := by
  cases op with
  | create n c p cv now =>
    by_cases hg : p ≤ 0 ∨ cv ≤ 0
    · simp only [Ins.step, Ins.create_policy, if_pos hg]
      exact h
    · simp only [Ins.step, Ins.create_policy, if_neg hg]
      exact inv_create_result s
        { id := Ins.nidOf s + 1, monthly_premium := p, coverage_amount := cv,
          next_payment_date := now + 30 * 86400, active := true,
          name := n, coverage_type := c } rfl h
  | deactivate pid =>
    cases hpd : Ins.polsOf s pid with
    | none =>
      simp only [Ins.step, Ins.deactivate_policy, hpd]
      exact h
    | some pol =>
      by_cases hact : pol.active = true
      · have hne : ¬ pol.active = false := by rw [hact]; simp
        simp only [Ins.step, Ins.deactivate_policy, hpd, if_neg hne]
        exact inv_deactivate_result s pid pol hpd hact h
      · have hfalse : pol.active = false := by
          cases hv : pol.active
          · rfl
          · exact absurd hv hact
        simp only [Ins.step, Ins.deactivate_policy, hpd, if_pos hfalse]
        exact h

/-- Every finite sequence of create/deactivate calls preserves the
aggregate-cache invariant. -/
theorem inv_run (s : Ins.St) (ops : List Ins.Op) (h : Ins.Inv s) :
    Ins.Inv (Ins.run s ops) := by
  induction ops generalizing s with
  | nil => exact h
  | cons op ops ih => exact ih _ (inv_step s op h)

/-- C2: starting from the initialized state or the all-absent default
state, after any sequence of create and deactivate calls the cached
active count equals the number of active policies, the cached total
equals the sum of their premiums, and the O(1) cached-aggregate read
get_total_monthly_premium returns exactly the true sum. -/
theorem c2_cached_aggregates_exact (s0 : Ins.St) (ops : List Ins.Op)
    (h0 : s0 = Ins.initState ∨ s0 = Ins.defaultState) :
    Ins.Inv (Ins.run s0 ops) ∧
    (Ins.run s0 ops).active_count.getD 0 = Ins.trueCount (Ins.run s0 ops) ∧
    get_total_monthly_premium (Ins.run s0 ops) = Ins.trueSum (Ins.run s0 ops) := by
  have hinv : Ins.Inv (Ins.run s0 ops) := by
    rcases h0 with rfl | rfl
    · exact inv_run _ _ inv_initState
    · exact inv_run _ _ inv_defaultState
  exact ⟨hinv, hinv.2.2.1, hinv.2.2.2⟩

/-- Witness for C2: one create followed by its deactivation, from the
initialized state. -/
theorem c2_witness :
    (Ins.initState = Ins.initState ∨ Ins.initState = Ins.defaultState) ∧
    (Ins.Inv (Ins.run Ins.initState
        [Ins.Op.create "life" "health" 5 100 0, Ins.Op.deactivate 1]) ∧
      (Ins.run Ins.initState
        [Ins.Op.create "life" "health" 5 100 0, Ins.Op.deactivate 1]).active_count.getD 0 =
        Ins.trueCount (Ins.run Ins.initState
          [Ins.Op.create "life" "health" 5 100 0, Ins.Op.deactivate 1]) ∧
      get_total_monthly_premium (Ins.run Ins.initState
        [Ins.Op.create "life" "health" 5 100 0, Ins.Op.deactivate 1]) =
        Ins.trueSum (Ins.run Ins.initState
          [Ins.Op.create "life" "health" 5 100 0, Ins.Op.deactivate 1])) :=
  ⟨Or.inl rfl,
    c2_cached_aggregates_exact Ins.initState
      [Ins.Op.create "life" "health" 5 100 0, Ins.Op.deactivate 1] (Or.inl rfl)⟩

end Remitwise
